import Mathlib

/-!
Shallow embedding of the nomade_native Flutter plugin
(src/packages/nomade_native/linux/nomade_native_plugin.cc and the Windows
registration shim), together with theorems settling the specification claims.

The plugin is modelled as pure functions over an explicit OS state.  The
observable effects of handling a method call (invoking the `uname` syscall
inside `get_platform_version`, and handing a response to
`fl_method_call_respond`) are recorded as an explicit event trace.
-/

namespace NomadeNative

/-- Structured values of the host's standard method codec (the subset this
plugin constructs or may receive as an argument payload). -/
inductive FlValue where
  | null
  | boolean (b : Bool)
  | integer (i : Int)
  | string (s : String)
  deriving DecidableEq

/-- Method responses: `fl_method_success_response_new` wraps a value,
`fl_method_not_implemented_response_new` carries nothing. -/
inductive FlMethodResponse where
  | success (value : FlValue)
  | notImplemented
  deriving DecidableEq

/-- An incoming method call: a method-name string
(`fl_method_call_get_name`) and an argument payload.  The Linux dispatcher
never reads the arguments. -/
structure FlMethodCall where
  name : String
  args : FlValue
  deriving DecidableEq

/-- Fields of `struct utsname` filled in by the `uname` syscall. -/
structure Utsname where
  sysname : String
  nodename : String
  release : String
  version : String
  machine : String
  deriving DecidableEq

/-- The zero-initialized `struct utsname uname_data = {};` buffer: every
char array is all zero bytes, i.e. every field reads as the empty string. -/
def utsnameZero : Utsname := ⟨"", "", "", "", ""⟩

/-- The OS state the plugin observes: the outcome of the `uname` syscall,
`none` meaning the syscall fails (and leaves the caller's buffer
untouched). -/
structure OSState where
  unameResult : Option Utsname
  deriving DecidableEq

/-- Observable events while handling one method call: the `uname` syscall
performed inside `get_platform_version`, and each invocation of
`fl_method_call_respond` with the response it hands over. -/
inductive Event where
  | unameQuery
  | respond (r : FlMethodResponse)
  deriving DecidableEq

/-- Embedding of `get_platform_version` (nomade_native_plugin.cc lines
38-44): zero-initialize a `utsname` buffer, call `uname` ignoring its
return value, format `"Linux %s"` with the buffer's `version` field, and
wrap the string in a success response.  Returns the events performed
paired with the constructed response. -/
def get_platform_version (os : OSState) : List Event × FlMethodResponse :=
  let uname_data : Utsname :=
    match os.unameResult with
    | some u => u
    | none => utsnameZero
  let version : String := "Linux " ++ uname_data.version
  let result : FlValue := FlValue.string version
  ([Event.unameQuery], FlMethodResponse.success result)

/-- Embedding of `nomade_native_plugin_handle_method_call`
(nomade_native_plugin.cc lines 22-36): read the method name, compare it
with `strcmp` against `"getPlatformVersion"`, take the matching branch,
then unconditionally call `fl_method_call_respond` once with the chosen
response.  The result is the trace of observable events. -/
def nomade_native_plugin_handle_method_call
    (os : OSState) (method_call : FlMethodCall) : List Event :=
  let method : String := method_call.name
  let (events, response) :=
    if method = "getPlatformVersion" then
      get_platform_version os
    else
      ([], FlMethodResponse.notImplemented)
  events ++ [Event.respond response]

/-- Responses handed to the host's reply mechanism within a trace. -/
def responsesOf (events : List Event) : List FlMethodResponse :=
  events.filterMap fun e =>
    match e with
    | Event.respond r => some r
    | Event.unameQuery => none

/-- Message codecs; the plugin only ever builds
`fl_standard_method_codec_new()`. -/
inductive Codec where
  | standardMethod
  deriving DecidableEq

/-- Embedding of `method_call_cb`: the callback installed on the channel,
which forwards every call to the dispatcher. -/
def method_call_cb (os : OSState) (method_call : FlMethodCall) : List Event :=
  nomade_native_plugin_handle_method_call os method_call

/-- One channel registration held by the host registrar: the channel name,
the codec the channel was created with, and the installed method-call
handler. -/
structure ChannelRegistration where
  channelName : String
  codec : Codec
  handler : OSState → FlMethodCall → List Event

/-- Embedding of `nomade_native_plugin_register_with_registrar`
(nomade_native_plugin.cc lines 62-76): create the plugin instance, create a
standard method codec, create one method channel named `"nomade_native"`
with that codec, and install `method_call_cb` as its handler — adding
exactly one registration to the registrar's state. -/
def nomade_native_plugin_register_with_registrar
    (registrar : List ChannelRegistration) : List ChannelRegistration :=
  registrar ++
    [{ channelName := "nomade_native"
       codec := Codec.standardMethod
       handler := method_call_cb }]

/-- C1: every invocation of the dispatcher, for every OS state and every
method call (any name, any argument payload), hands exactly one response to
the host's reply mechanism — never zero, never more than one, including the
not-implemented path. -/
theorem handle_method_call_exactly_one_response
    (os : OSState) (c : FlMethodCall) :
    (responsesOf (nomade_native_plugin_handle_method_call os c)).length = 1 := by
  unfold nomade_native_plugin_handle_method_call
  by_cases h : c.name = "getPlatformVersion" <;>
    simp [h, get_platform_version, responsesOf]

/-- C2: for every method-name string other than exactly
`"getPlatformVersion"`, the dispatcher's whole observable trace is a single
not-implemented response: the platform version query (and hence `uname`) is
never invoked and no other event occurs. -/
theorem handle_method_call_unknown_not_implemented
    (os : OSState) (c : FlMethodCall) (h : c.name ≠ "getPlatformVersion") :
    nomade_native_plugin_handle_method_call os c
      = [Event.respond FlMethodResponse.notImplemented] := by
  unfold nomade_native_plugin_handle_method_call
  simp [h]

/-- Witness for C2: the unimplemented method `getBatteryLevel` yields
exactly one not-implemented response and no query. -/
theorem handle_method_call_unknown_not_implemented_witness :
    nomade_native_plugin_handle_method_call
      ⟨some utsnameZero⟩ ⟨"getBatteryLevel", FlValue.null⟩
      = [Event.respond FlMethodResponse.notImplemented] :=
  handle_method_call_unknown_not_implemented _ _ (by decide)

/-- C3: for the exact method name `"getPlatformVersion"`, the dispatcher
performs the version query and responds with a success response whose
payload is a string value. -/
theorem handle_method_call_getPlatformVersion_success
    (os : OSState) (c : FlMethodCall) (h : c.name = "getPlatformVersion") :
    ∃ s : String,
      nomade_native_plugin_handle_method_call os c
        = [Event.unameQuery,
           Event.respond (FlMethodResponse.success (FlValue.string s))] := by
  refine ⟨"Linux " ++ (match os.unameResult with
    | some u => u
    | none => utsnameZero).version, ?_⟩
  unfold nomade_native_plugin_handle_method_call get_platform_version
  simp [h]

/-- Witness for C3 at a concrete OS state and call. -/
theorem handle_method_call_getPlatformVersion_success_witness :
    ∃ s : String,
      nomade_native_plugin_handle_method_call
        ⟨some utsnameZero⟩ ⟨"getPlatformVersion", FlValue.null⟩
        = [Event.unameQuery,
           Event.respond (FlMethodResponse.success (FlValue.string s))] :=
  handle_method_call_getPlatformVersion_success _ _ rfl

/-- C4: whenever the `uname` syscall succeeds and reports data `u`, the
platform version query returns a success response whose string is exactly
the literal `"Linux "` concatenated with `u.version`. -/
theorem get_platform_version_format (os : OSState) (u : Utsname)
    (h : os.unameResult = some u) :
    (get_platform_version os).2
      = FlMethodResponse.success (FlValue.string ("Linux " ++ u.version)) := by
  unfold get_platform_version
  simp [h]

/-- Witness for C4 at a concrete uname structure. -/
theorem get_platform_version_format_witness :
    (get_platform_version
        ⟨some ⟨"Linux", "host", "5.15.0-76-generic", "5.15.0-76-generic",
               "x86_64"⟩⟩).2
      = FlMethodResponse.success
          (FlValue.string ("Linux " ++ "5.15.0-76-generic")) :=
  get_platform_version_format _ _ rfl

/-- C5: scenario — calling `getPlatformVersion` with no arguments on a host
whose uname version field is `"5.15.0-76-generic"` yields the query
followed by exactly one success response carrying the exact string
`"Linux 5.15.0-76-generic"`. -/
theorem getPlatformVersion_scenario :
    nomade_native_plugin_handle_method_call
      ⟨some ⟨"Linux", "host", "5.15.0-76-generic", "5.15.0-76-generic",
             "x86_64"⟩⟩
      ⟨"getPlatformVersion", FlValue.null⟩
      = [Event.unameQuery,
         Event.respond (FlMethodResponse.success
           (FlValue.string "Linux 5.15.0-76-generic"))] := by
  decide

/-- C6: even when the `uname` syscall fails, a `getPlatformVersion` call
still receives exactly one response, a success carrying a string, so the
one-response-per-call invariant holds on the query-failure path. -/
theorem handle_method_call_uname_failure_still_responds
    (os : OSState) (c : FlMethodCall)
    (hf : os.unameResult = none) (hn : c.name = "getPlatformVersion") :
    ∃ s : String,
      responsesOf (nomade_native_plugin_handle_method_call os c)
        = [FlMethodResponse.success (FlValue.string s)] := by
  refine ⟨"Linux " ++ utsnameZero.version, ?_⟩
  unfold nomade_native_plugin_handle_method_call get_platform_version
  simp [hf, hn, responsesOf]

/-- Witness for C6: a failing uname state with a concrete call. -/
theorem handle_method_call_uname_failure_still_responds_witness :
    ∃ s : String,
      responsesOf (nomade_native_plugin_handle_method_call
          ⟨none⟩ ⟨"getPlatformVersion", FlValue.null⟩)
        = [FlMethodResponse.success (FlValue.string s)] :=
  handle_method_call_uname_failure_still_responds _ _ rfl rfl

/-- C7: the version query is deterministic with respect to the OS state:
any two invocations under OS states reporting the same uname data return
the same events and the same response (hence the same string). -/
theorem get_platform_version_deterministic (os₁ os₂ : OSState)
    (h : os₁.unameResult = os₂.unameResult) :
    get_platform_version os₁ = get_platform_version os₂ := by
  cases os₁
  cases os₂
  cases h
  rfl

/-- Witness for C7 at a concrete OS state. -/
theorem get_platform_version_deterministic_witness :
    get_platform_version ⟨some utsnameZero⟩
      = get_platform_version ⟨some utsnameZero⟩ :=
  get_platform_version_deterministic _ _ rfl

/-- C8: registering the plugin adds exactly one registration to the
registrar, on the channel named exactly `"nomade_native"`, with the
standard method codec, and installs `method_call_cb` (which dispatches to
the method-call handler) as its single callback. -/
theorem register_with_registrar_installs_one_channel
    (registrar : List ChannelRegistration) :
    ∃ r : ChannelRegistration,
      nomade_native_plugin_register_with_registrar registrar
          = registrar ++ [r]
        ∧ r.channelName = "nomade_native"
        ∧ r.codec = Codec.standardMethod
        ∧ r.handler = method_call_cb := by
  exact ⟨_, rfl, rfl, rfl, rfl⟩

/-- C9: when `uname` fails, its return value is ignored and the buffer
stays zero-initialized, so the query still returns a success response (not
an error) whose payload is `"Linux "` followed by the empty
zero-initialized version field. -/
theorem get_platform_version_uname_failure_payload
    (os : OSState) (h : os.unameResult = none) :
    (get_platform_version os).2
      = FlMethodResponse.success
          (FlValue.string ("Linux " ++ utsnameZero.version)) := by
  unfold get_platform_version
  simp [h]

/-- Witness for C9 at the failing-uname OS state. -/
theorem get_platform_version_uname_failure_payload_witness :
    (get_platform_version ⟨none⟩).2
      = FlMethodResponse.success
          (FlValue.string ("Linux " ++ utsnameZero.version)) :=
  get_platform_version_uname_failure_payload _ rfl

/-- C10: the dispatcher's observable behaviour depends only on the method
name and the OS state, never on the argument payload: two calls with the
same name under the same OS state produce identical traces even with
different arguments. -/
theorem handle_method_call_ignores_args
    (os : OSState) (c₁ c₂ : FlMethodCall) (h : c₁.name = c₂.name) :
    nomade_native_plugin_handle_method_call os c₁
      = nomade_native_plugin_handle_method_call os c₂ := by
  unfold nomade_native_plugin_handle_method_call
  rw [h]

/-- Witness for C10: same name, different argument payloads, equal
traces. -/
theorem handle_method_call_ignores_args_witness :
    nomade_native_plugin_handle_method_call
        ⟨some utsnameZero⟩ ⟨"getPlatformVersion", FlValue.null⟩
      = nomade_native_plugin_handle_method_call
        ⟨some utsnameZero⟩ ⟨"getPlatformVersion", FlValue.integer 42⟩ :=
  handle_method_call_ignores_args _ _ _ rfl

end NomadeNative
